import Mathlib

/-!
Verification of the bio2bel core: a shallow embedding of
src/bio2bel/utils.py (connection resolution, populate decorator) and
src/bio2bel/abstractmanager.py (manager construction, drop_all, ensure).

File system and process environment are modelled explicitly as a state
record; configparser behaviour (DEFAULT-section fallback of has_option and
get, parse failure on read of malformed content) is embedded from the
Python standard library semantics. Values are taken verbatim; configparser
interpolation is not modelled. The module constants (constants.py) and the
Action model (models.py) are not part of the two source files, so the
default connection string is a parameter everywhere and the ledger
operations are modelled from the specification, as marked in their doc
comments.
-/

namespace Bio2Bel

/-- ASCII lower-casing of a string, modelling the Python str.lower calls on
module names (module names are basic latin). -/
def strLower (s : String) : String := ⟨s.data.map Char.toLower⟩

/-- ASCII upper-casing of a string, modelling the Python str.upper call used
to build the per-module environment variable name. -/
def strUpper (s : String) : String := ⟨s.data.map Char.toUpper⟩

/-- Parsed content of one INI file as configparser represents it: the
key/value pairs of the DEFAULT section plus the named sections with their
key/value pairs. -/
structure INIData where
  defaults : List (String × String)
  sections : List (String × List (String × String))
deriving DecidableEq

/-- A file on disk holding INI content: either unparseable (configparser
read raises on it) or parsed data. -/
inductive INIFile where
  | malformed
  | parsed (d : INIData)
deriving DecidableEq

/-- Name of the configparser default section. -/
def DEFAULT_SECTION : String := "DEFAULT"

/-- configparser RawConfigParser.has_option: an empty section name means
the DEFAULT section; a missing section yields false; otherwise the option
may live in the section itself or in the DEFAULT section. -/
def has_option (d : INIData) (sec opt : String) : Bool :=
  if sec = "" ∨ sec = DEFAULT_SECTION then (d.defaults.lookup opt).isSome
  else
    match d.sections.lookup sec with
    | none => false
    | some kvs => (kvs.lookup opt).isSome || (d.defaults.lookup opt).isSome

/-- Exceptions the configparser calls can raise: parsingError models the
ParsingError raised by read on malformed content; noSectionError models the
NoSectionError raised by get on a section name absent from the named
sections (the empty name included, since only the literal DEFAULT name
selects the defaults in get, unlike has_option); noOptionError models the
NoOptionError raised by get when the option is found nowhere. -/
inductive ConfigError where
  | parsingError
  | noSectionError
  | noOptionError
deriving DecidableEq

/-- configparser RawConfigParser.get: only the section name DEFAULT selects
the defaults; any other section name, the empty string included, must be
present among the named sections or NoSectionError is raised, and note the
asymmetry with has_option, which treats the empty name as the DEFAULT
section; inside an existing section the option value falls back to the
DEFAULT section, and a missing option raises NoOptionError. -/
def cfg_get (d : INIData) (sec opt : String) : Except ConfigError String :=
  if sec = DEFAULT_SECTION then
    match d.defaults.lookup opt with
    | some v => Except.ok v
    | none => Except.error ConfigError.noOptionError
  else
    match d.sections.lookup sec with
    | none => Except.error ConfigError.noSectionError
    | some kvs =>
      match kvs.lookup opt with
      | some v => Except.ok v
      | none =>
        match d.defaults.lookup opt with
        | some v => Except.ok v
        | none => Except.error ConfigError.noOptionError

/-- State of the world seen by get_connection: the global config file at
DEFAULT_CONFIG_PATH, the per-module config files at
BIO2BEL_DIR/module_name/config.ini (keyed by the lower-cased module name),
and the process environment os.environ. -/
structure FsState where
  globalConfig : Option INIFile
  moduleConfig : String → Option INIFile
  env : String → Option String

/-- Environment variable name consulted for a module, utils.py line 62:
BIO2BEL_ followed by the upper-cased module name and _CONNECTION. -/
def bio2bel_module_env (module_name : String) : String :=
  "BIO2BEL_" ++ strUpper module_name ++ "_CONNECTION"

/-- INI content the source writes when creating the global config file,
utils.py lines 97 to 102: only the DEFAULT section, holding the default
cache connection. -/
def seededINI (dflt : String) : INIData :=
  { defaults := [("connection", dflt)], sections := [] }

/-- Shared read of the default-section connection key from parsed global
config data, utils.py lines 104 to 115: if the option is absent return the
hardcoded default without touching the file, otherwise return the stored
value. -/
def read_default_connection (dflt : String) (st : FsState) (g : INIData) :
    Except ConfigError (String × FsState) :=
  if has_option g DEFAULT_SECTION "connection" then
    match cfg_get g DEFAULT_SECTION "connection" with
    | Except.ok v => Except.ok (v, st)
    | Except.error e => Except.error e
  else Except.ok (dflt, st)

/-- Steps 6 and 7 of get_connection, utils.py lines 96 to 115: create the
global config file seeded with the default if it does not exist, then read
its default section back. -/
def tier_default (dflt : String) (st : FsState) :
    Except ConfigError (String × FsState) :=
  match st.globalConfig with
  | none =>
    let seeded := seededINI dflt
    read_default_connection dflt
      { st with globalConfig := some (INIFile.parsed seeded) } seeded
  | some INIFile.malformed => Except.error ConfigError.parsingError
  | some (INIFile.parsed g) => read_default_connection dflt st g

/-- Step 5 of get_connection, utils.py lines 90 to 94: the module-agnostic
BIO2BEL_CONNECTION environment variable, else fall through. -/
def tier_global_env (dflt : String) (st : FsState) :
    Except ConfigError (String × FsState) :=
  match st.env "BIO2BEL_CONNECTION" with
  | some v => Except.ok (v, st)
  | none => tier_default dflt st

/-- Step 4 of get_connection, utils.py lines 80 to 88: the per-module
config file, read only if present, checked for a connection key in its
default section; takes the already lower-cased module name. -/
def tier_local (dflt : String) (st : FsState) (module_name : String) :
    Except ConfigError (String × FsState) :=
  match st.moduleConfig module_name with
  | some INIFile.malformed => Except.error ConfigError.parsingError
  | some (INIFile.parsed l) =>
    if has_option l DEFAULT_SECTION "connection" then
      match cfg_get l DEFAULT_SECTION "connection" with
      | Except.ok v => Except.ok (v, st)
      | Except.error e => Except.error e
    else tier_global_env dflt st
  | none => tier_global_env dflt st

/-- Step 3 of get_connection, utils.py lines 68 to 78: the global config
file, read if present, checked with has_option for a connection key under
the section named by the lower-cased module name. -/
def tier_global_section (dflt : String) (st : FsState) (module_name : String) :
    Except ConfigError (String × FsState) :=
  match st.globalConfig with
  | some INIFile.malformed => Except.error ConfigError.parsingError
  | some (INIFile.parsed g) =>
    if has_option g module_name "connection" then
      match cfg_get g module_name "connection" with
      | Except.ok v => Except.ok (v, st)
      | Except.error e => Except.error e
    else tier_local dflt st module_name
  | none => tier_local dflt st module_name

/-- get_connection, utils.py lines 35 to 115. The first parameter is the
DEFAULT_CACHE_CONNECTION constant (constants.py is not among the source
files, so the value is abstract). Returns the resolved connection string
together with the possibly updated file-system state, or the raised
exception. -/
def get_connection (dflt : String) (st : FsState) (module_name : String)
    (connection : Option String) : Except ConfigError (String × FsState) :=
  let module_name := strLower module_name
  match connection with
  | some c => Except.ok (c, st)
  | none =>
    match st.env (bio2bel_module_env module_name) with
    | some v => Except.ok (v, st)
    | none => tier_global_section dflt st module_name

/-- A state with no config files and an empty environment. -/
def emptyFs : FsState :=
  { globalConfig := none, moduleConfig := fun _ => none, env := fun _ => none }

/-- The state after the global config file has been created and seeded. -/
def seedState (st : FsState) (dflt : String) : FsState :=
  { st with globalConfig := some (INIFile.parsed (seededINI dflt)) }

example : get_connection "d" emptyFs "hgnc" none =
    Except.ok ("d", seedState emptyFs "d") := by rfl

example : get_connection "d" emptyFs "hgnc" (some "x") =
    Except.ok ("x", emptyFs) := by rfl

/-- Exceptions of AbstractManagerConnectionMixin construction:
missingNameError models Bio2BELMissingNameError, moduleCaseError models
Bio2BELModuleCaseError, and configError wraps whatever get_connection
raises. -/
inductive ManagerInitError where
  | missingNameError
  | moduleCaseError
  | configError (e : ConfigError)
deriving DecidableEq

/-- The connection-resolving part of AbstractManagerConnectionMixin.__init__,
abstractmanager.py lines 47 to 57: an empty module_name (a falsy string) is
rejected with Bio2BELMissingNameError, a module_name that is not already
lower case with Bio2BELModuleCaseError, and otherwise get_connection is
called. A non-string module_name is outside this string-typed embedding. -/
def mixin_init (dflt : String) (st : FsState) (module_name : String)
    (connection : Option String) : Except ManagerInitError (String × FsState) :=
  if module_name = "" then Except.error ManagerInitError.missingNameError
  else if module_name ≠ strLower module_name then
    Except.error ManagerInitError.moduleCaseError
  else
    match get_connection dflt st module_name connection with
    | Except.ok r => Except.ok r
    | Except.error e => Except.error (ManagerInitError.configError e)

/-- Kind of a recorded lifecycle action. -/
inductive ActionKind where
  | populate
  | drop
deriving DecidableEq

/-- Modelled from the spec: models.py (the Action model) is not among the
source files. One ledger entry, spec section 3: lower-cased module name,
the action kind, and an optional opaque session identity. The surrogate id
is the position in the ledger list. -/
structure LedgerEntry where
  module_name : String
  action : ActionKind
  session : Option Nat
deriving DecidableEq

/-- Modelled from the spec: models.py is not among the source files.
Action.store_populate appends one immutable entry with the lower-cased
module name and the optional session identity (spec sections 3 and 4.2). -/
def store_populate (ledger : List LedgerEntry) (module_name : String)
    (session : Option Nat) : List LedgerEntry :=
  ledger ++ [{ module_name := strLower module_name,
               action := ActionKind.populate, session := session }]

/-- Modelled from the spec: models.py is not among the source files.
Action.store_drop appends one immutable entry with the lower-cased module
name (spec sections 3 and 4.2). -/
def store_drop (ledger : List LedgerEntry) (module_name : String) :
    List LedgerEntry :=
  ledger ++ [{ module_name := strLower module_name,
               action := ActionKind.drop, session := none }]

/-- One observable event of a lifecycle operation: the ledger insert or the
underlying schema mutation. -/
inductive LifeEvent where
  | ledgerWrite (k : ActionKind)
  | schemaMutation
deriving DecidableEq

/-- Control flow of a function wrapped by bio2bel_populater, utils.py lines
133 to 139: Action.store_populate runs first, then the wrapped f. The
Boolean ledgerOk says whether the ledger insert succeeds (a failing insert
raises, modelled from the spec since models.py is not among the source
files); on failure the exception propagates and f never runs. fEvents is
the event trace of the wrapped f, and the Boolean result says whether the
call completed. -/
def populater_run (ledgerOk : Bool) (fEvents : List LifeEvent) :
    List LifeEvent × Bool :=
  if ledgerOk then (LifeEvent.ledgerWrite ActionKind.populate :: fEvents, true)
  else ([], false)

/-- Control flow of AbstractManager.drop_all, abstractmanager.py lines 207
to 214: the metadata drop_all runs first, then Action.store_drop; a failing
ledger insert raises after the schema mutation has already run. -/
def drop_all_run (ledgerOk : Bool) : List LifeEvent × Bool :=
  if ledgerOk then
    ([LifeEvent.schemaMutation, LifeEvent.ledgerWrite ActionKind.drop], true)
  else ([LifeEvent.schemaMutation], false)

/-- Recognizes the ledger insert event. -/
def isLedgerWrite : LifeEvent → Bool
  | LifeEvent.ledgerWrite _ => true
  | LifeEvent.schemaMutation => false

/-- Recognizes the schema mutation event. -/
def isMutation : LifeEvent → Bool
  | LifeEvent.ledgerWrite _ => false
  | LifeEvent.schemaMutation => true

/-- The ledger insert happens strictly before the schema mutation in the
given trace. -/
def ledger_before_mutation (tr : List LifeEvent) : Prop :=
  tr.findIdx isLedgerWrite < tr.findIdx isMutation

instance (tr : List LifeEvent) : Decidable (ledger_before_mutation tr) := by
  unfold ledger_before_mutation; infer_instance

/-- A Python value passed to AbstractManager.ensure: None, a string, an
instance of the manager class, or a value of any other type. -/
inductive EnsureArg (Manager : Type) where
  | pynone
  | pystr (s : String)
  | mgr (m : Manager)
  | other
deriving DecidableEq

/-- The TypeError raise of AbstractManager.ensure. -/
inductive PyTypeError where
  | typeError
deriving DecidableEq

/-- AbstractManager.ensure, abstractmanager.py lines 180 to 193: None or a
string builds a fresh manager through the class constructor mk, an instance
of the class is returned unchanged, anything else raises TypeError. -/
def ensure {Manager : Type} (mk : Option String → Manager) :
    EnsureArg Manager → Except PyTypeError Manager
  | EnsureArg.pynone => Except.ok (mk none)
  | EnsureArg.pystr s => Except.ok (mk (some s))
  | EnsureArg.mgr m => Except.ok m
  | EnsureArg.other => Except.error PyTypeError.typeError

theorem char_toUpper_toLower (c : Char) : c.toLower.toUpper = c.toUpper := by
  by_cases h : 65 ≤ c.toNat ∧ c.toNat ≤ 90
  · obtain ⟨h1, h2⟩ := h
    have hc := Char.ofNat_toNat c
    generalize hn : c.toNat = n at h1 h2 hc
    subst hc
    interval_cases n <;> decide
  · have hlow : c.toLower = c := by
      unfold Char.toLower
      exact if_neg h
    rw [hlow]

theorem char_toLower_toLower (c : Char) : c.toLower.toLower = c.toLower := by
  by_cases h : 65 ≤ c.toNat ∧ c.toNat ≤ 90
  · obtain ⟨h1, h2⟩ := h
    have hc := Char.ofNat_toNat c
    generalize hn : c.toNat = n at h1 h2 hc
    subst hc
    interval_cases n <;> decide
  · have hlow : c.toLower = c := by
      unfold Char.toLower
      exact if_neg h
    rw [hlow, hlow]

theorem strUpper_strLower (s : String) : strUpper (strLower s) = strUpper s := by
  unfold strUpper strLower
  simp only [List.map_map]
  congr 1
  apply List.map_congr_left
  intro c _
  exact char_toUpper_toLower c

theorem strLower_strLower (s : String) : strLower (strLower s) = strLower s := by
  unfold strLower
  simp only [List.map_map]
  congr 1
  apply List.map_congr_left
  intro c _
  exact char_toLower_toLower c

theorem bio2bel_module_env_strLower (m : String) :
    bio2bel_module_env (strLower m) = bio2bel_module_env m := by
  unfold bio2bel_module_env
  rw [strUpper_strLower]

theorem strLower_eq_empty_iff (M : String) : strLower M = "" ↔ M = "" := by
  constructor
  · intro h
    have h2 : (strLower M).data = String.data "" := congrArg String.data h
    unfold strLower at h2
    have h3 : M.data = [] := by simpa using h2
    cases M with
    | mk d =>
      have h4 : d = [] := by simpa using h3
      subst h4
      rfl
  · intro h
    subst h
    rfl

theorem has_option_iff_ok (d : INIData) (sec opt : String) (hsec : sec ≠ "") :
    has_option d sec opt = true ↔ ∃ v, cfg_get d sec opt = Except.ok v := by
  unfold has_option cfg_get
  by_cases hd : sec = DEFAULT_SECTION
  · rw [if_pos (Or.inr hd), if_pos hd]
    rcases h : d.defaults.lookup opt with _ | v <;> simp [h]
  · have hor : ¬ (sec = "" ∨ sec = DEFAULT_SECTION) := by
      intro hc
      rcases hc with hc | hc
      · exact hsec hc
      · exact hd hc
    rw [if_neg hor, if_neg hd]
    rcases hs : d.sections.lookup sec with _ | kvs
    · simp
    · rcases hk : kvs.lookup opt with _ | v
      · rcases hdf : d.defaults.lookup opt with _ | v <;> simp [hk, hdf]
      · simp [hk]

/-- C4: for every module name and every explicit connection string X,
get_connection returns exactly X, in every file-system and environment
state, leaving the state untouched. -/
theorem C4_explicit_connection_wins (dflt M X : String) (st : FsState) :
    get_connection dflt st M (some X) = Except.ok (X, st) := rfl

/-- C5: when the per-module environment variable BIO2BEL_<M upper>_CONNECTION
is set and no explicit connection is given, get_connection returns the
environment value, in every file-system state, in particular also when the
global config file has a section for M with a different value. -/
theorem C5_module_env_overrides (dflt M v : String) (st : FsState)
    (h : st.env ("BIO2BEL_" ++ strUpper M ++ "_CONNECTION") = some v) :
    get_connection dflt st M none = Except.ok (v, st) := by
  unfold get_connection
  dsimp only
  rw [bio2bel_module_env_strLower]
  unfold bio2bel_module_env
  rw [h]

/-- State for the C5 witness: the environment variable for hgnc is set and
the global config file has a conflicting section for hgnc. -/
def stC5 : FsState :=
  { globalConfig := some (INIFile.parsed
      { defaults := [], sections := [("hgnc", [("connection", "global-value")])] }),
    moduleConfig := fun _ => none,
    env := fun k => if k = "BIO2BEL_HGNC_CONNECTION" then some "env-value" else none }

/-- C5 witness: a concrete run in which the environment value wins over the
conflicting global config section, with a non-lower-case caller casing. -/
theorem C5_module_env_overrides_witness :
    get_connection "default-conn" stC5 "HGNC" none = Except.ok ("env-value", stC5) :=
  C5_module_env_overrides "default-conn" "HGNC" "env-value" stC5 (by decide)

/-- C1 counterexample: the empty module name is a string module name in the
scope of the claim, and from a fresh environment the first call creates the
seeded file and returns the default, but the very next call raises
NoSectionError: has_option with the empty section name passes via the
DEFAULT section while configparser get with the empty section name raises,
so not every call after the first returns the default. -/
theorem C1_counterexample :
    get_connection "default-conn" emptyFs "" none =
      Except.ok ("default-conn", seedState emptyFs "default-conn") ∧
    get_connection "default-conn" (seedState emptyFs "default-conn") "" none =
      Except.error ConfigError.noSectionError :=
  ⟨rfl, rfl⟩

/-- C1 amended: starting from a fresh environment (global config file
absent, no bio2bel environment variables, no per-module config file, no
explicit connection), for every non-empty module name the first call
creates the global config file seeded with the hardcoded default and
returns that default, and a repeated call finds the file, leaves the state
unchanged, and returns the same default read back from the file; for the
empty module name the repeated call instead raises NoSectionError. -/
theorem C1_fresh_creates_once (dflt M : String) (st : FsState)
    (hM : M ≠ "")
    (hg : st.globalConfig = none)
    (hme : st.env (bio2bel_module_env M) = none)
    (hge : st.env "BIO2BEL_CONNECTION" = none)
    (hmc : st.moduleConfig (strLower M) = none) :
    get_connection dflt st M none = Except.ok (dflt, seedState st dflt) ∧
    get_connection dflt (seedState st dflt) M none =
      Except.ok (dflt, seedState st dflt) := by
  constructor
  · unfold get_connection
    dsimp only
    rw [bio2bel_module_env_strLower, hme]
    unfold tier_global_section
    rw [hg]
    unfold tier_local
    rw [hmc]
    unfold tier_global_env
    rw [hge]
    unfold tier_default
    rw [hg]
    rfl
  · unfold get_connection
    dsimp only [seedState]
    rw [bio2bel_module_env_strLower, hme]
    unfold tier_global_section
    dsimp only
    have h0 : ¬ strLower M = "" := fun h => hM ((strLower_eq_empty_iff M).mp h)
    by_cases h1 : strLower M = DEFAULT_SECTION
    · simp [has_option, cfg_get, seededINI, h1, List.lookup, seedState,
        DEFAULT_SECTION]
    · have hor : ¬ (strLower M = "" ∨ strLower M = DEFAULT_SECTION) := by
        intro hc
        rcases hc with hc | hc
        · exact h0 hc
        · exact h1 hc
      simp only [has_option, seededINI, if_neg hor, List.lookup, Bool.false_eq_true,
        if_false]
      unfold tier_local
      dsimp only
      rw [hmc]
      unfold tier_global_env
      dsimp only
      rw [hge]
      unfold tier_default
      dsimp only
      simp [read_default_connection, has_option, cfg_get, seededINI, List.lookup,
        seedState]

/-- C1 witness: the concrete fresh run for the non-empty module name hgnc
with a concrete default: the file is created and seeded on the first call
and both calls return the default. -/
theorem C1_fresh_creates_once_witness :
    get_connection "default-conn" emptyFs "hgnc" none =
      Except.ok ("default-conn", seedState emptyFs "default-conn") ∧
    get_connection "default-conn" (seedState emptyFs "default-conn") "hgnc" none =
      Except.ok ("default-conn", seedState emptyFs "default-conn") :=
  C1_fresh_creates_once "default-conn" "hgnc" emptyFs (by decide) rfl rfl rfl rfl

/-- A file slot is absent or holds parseable content. -/
def fileOk : Option INIFile → Bool
  | some INIFile.malformed => false
  | some (INIFile.parsed _) => true
  | none => true

theorem guarded_total (d : INIData) (sec : String) (st : FsState)
    (k : Except ConfigError (String × FsState))
    (hsec : sec ≠ "")
    (hk : ∃ v st1, k = Except.ok (v, st1)) :
    ∃ v st1, (if has_option d sec "connection" then
        match cfg_get d sec "connection" with
        | Except.ok v => Except.ok (v, st)
        | Except.error e => Except.error e
      else k) = Except.ok (v, st1) := by
  by_cases h : has_option d sec "connection" = true
  · rcases (has_option_iff_ok d sec "connection" hsec).mp h with ⟨v, hv⟩
    refine ⟨v, st, ?_⟩
    rw [if_pos h, hv]
  · rw [if_neg h]
    exact hk

theorem tier_default_total (dflt : String) (st : FsState)
    (hg : fileOk st.globalConfig = true) :
    ∃ v st1, tier_default dflt st = Except.ok (v, st1) := by
  unfold tier_default
  cases hgc : st.globalConfig with
  | none =>
    unfold read_default_connection
    exact guarded_total _ _ _ _ (by decide) ⟨dflt, _, rfl⟩
  | some f =>
    cases f with
    | malformed => rw [hgc] at hg; exact absurd hg (by simp [fileOk])
    | parsed g =>
      unfold read_default_connection
      exact guarded_total _ _ _ _ (by decide) ⟨dflt, st, rfl⟩

theorem tier_global_env_total (dflt : String) (st : FsState)
    (hg : fileOk st.globalConfig = true) :
    ∃ v st1, tier_global_env dflt st = Except.ok (v, st1) := by
  unfold tier_global_env
  cases he : st.env "BIO2BEL_CONNECTION" with
  | some v => exact ⟨v, st, rfl⟩
  | none => exact tier_default_total dflt st hg

theorem tier_local_total (dflt : String) (st : FsState) (module_name : String)
    (hg : fileOk st.globalConfig = true)
    (hl : fileOk (st.moduleConfig module_name) = true) :
    ∃ v st1, tier_local dflt st module_name = Except.ok (v, st1) := by
  unfold tier_local
  cases hmc : st.moduleConfig module_name with
  | none => exact tier_global_env_total dflt st hg
  | some f =>
    cases f with
    | malformed => rw [hmc] at hl; exact absurd hl (by simp [fileOk])
    | parsed l =>
      exact guarded_total _ _ _ _ (by decide) (tier_global_env_total dflt st hg)

theorem tier_global_section_total (dflt : String) (st : FsState)
    (module_name : String)
    (hm : module_name ≠ "")
    (hg : fileOk st.globalConfig = true)
    (hl : fileOk (st.moduleConfig module_name) = true) :
    ∃ v st1, tier_global_section dflt st module_name = Except.ok (v, st1) := by
  unfold tier_global_section
  cases hgc : st.globalConfig with
  | none => exact tier_local_total dflt st module_name hg hl
  | some f =>
    cases f with
    | malformed => rw [hgc] at hg; exact absurd hg (by simp [fileOk])
    | parsed g =>
      refine guarded_total _ _ _ _ hm ?_
      apply tier_local_total dflt st module_name
      · rw [hgc]; rfl
      · exact hl

/-- C2 counterexample: the empty module name is a string module name, and
in the seeded state (global config file present and well formed, its
DEFAULT section holding the connection key; no other file; empty
environment) get_connection raises NoSectionError: has_option with the
empty section name passes via the DEFAULT section but configparser get
with the empty section name raises, so resolution is not exception free
over all string module names. -/
theorem C2_counterexample :
    fileOk (seedState emptyFs "default-conn").globalConfig = true ∧
    fileOk ((seedState emptyFs "default-conn").moduleConfig (strLower "")) = true ∧
    get_connection "default-conn" (seedState emptyFs "default-conn") "" none =
      Except.error ConfigError.noSectionError :=
  ⟨rfl, rfl, rfl⟩

/-- C2 amended: for every non-empty module name and every state whose
present config files are parseable, get_connection returns a connection
string and raises no exception; for the empty module name it can raise
NoSectionError. -/
theorem C2_never_fails (dflt M : String) (conn : Option String) (st : FsState)
    (hM : M ≠ "")
    (hg : fileOk st.globalConfig = true)
    (hl : fileOk (st.moduleConfig (strLower M)) = true) :
    ∃ v st1, get_connection dflt st M conn = Except.ok (v, st1) := by
  have hM' : strLower M ≠ "" := fun h => hM ((strLower_eq_empty_iff M).mp h)
  unfold get_connection
  dsimp only
  cases conn with
  | some c => exact ⟨c, st, rfl⟩
  | none =>
    cases he : st.env (bio2bel_module_env (strLower M)) with
    | some v => exact ⟨v, st, rfl⟩
    | none => exact tier_global_section_total dflt st (strLower M) hM' hg hl

/-- C2 witness: a concrete state with both relevant files present and
parseable, neither holding a connection key, resolves without an error for
a non-empty module name. -/
theorem C2_never_fails_witness :
    ∃ v st1, get_connection "default-conn"
      { globalConfig := some (INIFile.parsed { defaults := [], sections := [] }),
        moduleConfig := fun _ =>
          some (INIFile.parsed { defaults := [], sections := [] }),
        env := fun _ => none } "mymod" none = Except.ok (v, st1) :=
  C2_never_fails "default-conn" "mymod" none _ (by decide) rfl rfl

/-- Global config data for the C3 counterexample: the DEFAULT section holds
a connection value and the section for mymod exists but holds no connection
key of its own. -/
def gC3 : INIData :=
  { defaults := [("connection", "global-default")], sections := [("mymod", [])] }

/-- State for the C3 counterexample: global config as in gC3, a per-module
config file for mymod with its own connection value, empty environment. -/
def stC3 : FsState :=
  { globalConfig := some (INIFile.parsed gC3),
    moduleConfig := fun k =>
      if k = "mymod" then
        some (INIFile.parsed { defaults := [("connection", "local-value")], sections := [] })
      else none,
    env := fun _ => none }

/-- C3 counterexample: the global config section mymod exists but does not
itself define the connection key, and the per-module config file defines
local-value, yet get_connection answers at the global tier with the value
taken from the DEFAULT section of the global file (configparser fallback)
instead of continuing to the per-module file. -/
theorem C3_counterexample :
    get_connection "d0" stC3 "mymod" none = Except.ok ("global-default", stC3) ∧
    gC3.sections.lookup "mymod" = some [] ∧
    ([] : List (String × String)).lookup "connection" = none ∧
    stC3.moduleConfig "mymod" =
      some (INIFile.parsed { defaults := [("connection", "local-value")], sections := [] }) :=
  ⟨rfl, rfl, rfl, rfl⟩

/-- C3 amended: with the global config file present, the module environment
variable unset and a non-empty module name, the global tier answers exactly
when the configparser lookup with DEFAULT-section fallback finds a
connection value for the section named by the lower-cased module name (so
also when the section exists and only the DEFAULT section of the global
file defines the key); when has_option denies, resolution continues with
the per-module config file and then the BIO2BEL_CONNECTION environment
variable, in that order. -/
theorem C3_global_tier_amended (dflt M : String) (st : FsState) (g : INIData)
    (hM : M ≠ "")
    (hg : st.globalConfig = some (INIFile.parsed g))
    (hme : st.env (bio2bel_module_env M) = none) :
    (∀ v, cfg_get g (strLower M) "connection" = Except.ok v →
      get_connection dflt st M none = Except.ok (v, st)) ∧
    (has_option g (strLower M) "connection" = false →
      get_connection dflt st M none = tier_local dflt st (strLower M)) := by
  have hM' : strLower M ≠ "" := fun h => hM ((strLower_eq_empty_iff M).mp h)
  constructor
  · intro v hv
    unfold get_connection
    dsimp only
    rw [bio2bel_module_env_strLower, hme]
    unfold tier_global_section
    rw [hg]
    dsimp only
    have h : has_option g (strLower M) "connection" = true :=
      (has_option_iff_ok g (strLower M) "connection" hM').mpr ⟨v, hv⟩
    rw [if_pos h, hv]
  · intro hfalse
    unfold get_connection
    dsimp only
    rw [bio2bel_module_env_strLower, hme]
    unfold tier_global_section
    rw [hg]
    dsimp only
    have h : ¬ has_option g (strLower M) "connection" = true := by
      rw [hfalse]; simp
    rw [if_neg h]

/-- C3 amended witness: the counterexample state through the amended
theorem: the DEFAULT-fallback value is returned at the global tier. -/
theorem C3_global_tier_amended_witness :
    get_connection "d0" stC3 "mymod" none = Except.ok ("global-default", stC3) :=
  (C3_global_tier_amended "d0" "mymod" stC3 gC3 (by decide) rfl rfl).1
    "global-default" rfl

/-- C6: with no explicit connection and the module environment variable
unset, a malformed config file that resolution consults makes
get_connection raise the parse error instead of returning the default or
any other value: first conjunct, the global config file is malformed;
second, the global file is parseable but does not answer for the module and
the per-module file is malformed; third, the global file is absent and the
per-module file is malformed. -/
theorem C6_malformed_propagates (dflt M : String) (st : FsState)
    (hme : st.env (bio2bel_module_env M) = none) :
    (st.globalConfig = some INIFile.malformed →
      get_connection dflt st M none = Except.error ConfigError.parsingError) ∧
    (∀ g, st.globalConfig = some (INIFile.parsed g) →
      has_option g (strLower M) "connection" = false →
      st.moduleConfig (strLower M) = some INIFile.malformed →
      get_connection dflt st M none = Except.error ConfigError.parsingError) ∧
    (st.globalConfig = none →
      st.moduleConfig (strLower M) = some INIFile.malformed →
      get_connection dflt st M none = Except.error ConfigError.parsingError) := by
  refine ⟨?_, ?_, ?_⟩
  · intro hg
    unfold get_connection
    dsimp only
    rw [bio2bel_module_env_strLower, hme]
    unfold tier_global_section
    rw [hg]
  · intro g hg hopt hmc
    unfold get_connection
    dsimp only
    rw [bio2bel_module_env_strLower, hme]
    unfold tier_global_section
    rw [hg]
    dsimp only
    rw [if_neg (by rw [hopt]; simp)]
    unfold tier_local
    rw [hmc]
  · intro hg hmc
    unfold get_connection
    dsimp only
    rw [bio2bel_module_env_strLower, hme]
    unfold tier_global_section
    rw [hg]
    unfold tier_local
    rw [hmc]

/-- State for the C6 witness: a malformed global config file. -/
def stC6 : FsState :=
  { globalConfig := some INIFile.malformed,
    moduleConfig := fun _ => none,
    env := fun _ => none }

/-- C6 witness: the malformed global config file makes the concrete run
fail with the parse error. -/
theorem C6_malformed_propagates_witness :
    get_connection "d0" stC6 "mymod" none = Except.error ConfigError.parsingError :=
  (C6_malformed_propagates "d0" "mymod" stC6 rfl).1 rfl

/-- C7 counterexample: calling get_connection with the empty module name in
a fresh state does not fail at all, let alone fast: it runs the full
resolution, creates the global config file (file-system output) and returns
the default, so no invalid-module-name error exists on this path. -/
theorem C7_counterexample :
    get_connection "default-conn" emptyFs "" none =
      Except.ok ("default-conn", seedState emptyFs "default-conn") := rfl

/-- C7 amended: connection resolution itself does not validate the module
name (an empty name resolves normally); the fail-fast check lives in the
manager constructor, where an empty (falsy) module_name raises
Bio2BELMissingNameError before any resolution input or output. -/
theorem C7_empty_name_amended (dflt : String) (st : FsState)
    (conn : Option String) :
    mixin_init dflt st "" conn = Except.error ManagerInitError.missingNameError := rfl

/-- C8 counterexample: with the ledger insert succeeding and the wrapped
function performing its schema mutation, the populate path records the
ledger entry before the mutation while drop_all records it after, so there
is no single consistent point across the two lifecycle operations. -/
theorem C8_counterexample :
    ¬ ((ledger_before_mutation (populater_run true [LifeEvent.schemaMutation]).1 ∧
        ledger_before_mutation (drop_all_run true).1) ∨
       (¬ ledger_before_mutation (populater_run true [LifeEvent.schemaMutation]).1 ∧
        ¬ ledger_before_mutation (drop_all_run true).1)) := by decide

/-- C8 amended: the ledger entry is recorded before the schema mutation for
populate and after it for drop (so the point is not consistent across the
two operations), and a ledger write failure aborts either operation: for
populate the wrapped function never runs, for drop the failure propagates
after the mutation has already executed. -/
theorem C8_order_and_abort_amended (fEvents : List LifeEvent) :
    populater_run true fEvents =
      (LifeEvent.ledgerWrite ActionKind.populate :: fEvents, true) ∧
    drop_all_run true =
      ([LifeEvent.schemaMutation, LifeEvent.ledgerWrite ActionKind.drop], true) ∧
    populater_run false fEvents = ([], false) ∧
    drop_all_run false = ([LifeEvent.schemaMutation], false) :=
  ⟨rfl, rfl, rfl, rfl⟩

/-- C9: recording a populate for a module and then a drop for the same
module appends exactly the two entries, in call order, each storing the
lower-cased module name; lower-casing is idempotent, so the stored name is
lower case for every caller casing. -/
theorem C9_two_entries_lowercase (ledger : List LedgerEntry) (M : String)
    (s : Option Nat) :
    store_drop (store_populate ledger M s) M =
      ledger ++
        [{ module_name := strLower M, action := ActionKind.populate, session := s },
         { module_name := strLower M, action := ActionKind.drop, session := none }] ∧
    strLower (strLower M) = strLower M := by
  refine ⟨?_, strLower_strLower M⟩
  unfold store_drop store_populate
  simp

/-- C10: ensure returns the very same manager unchanged when passed an
instance of the class, constructs a fresh manager through the class
constructor when passed None or a string, and raises TypeError on a value
of any other type. -/
theorem C10_ensure_dispatch (Manager : Type) (mk : Option String → Manager) :
    ensure mk EnsureArg.pynone = Except.ok (mk none) ∧
    (∀ s, ensure mk (EnsureArg.pystr s) = Except.ok (mk (some s))) ∧
    (∀ m, ensure mk (EnsureArg.mgr m) = Except.ok m) ∧
    ensure mk (EnsureArg.other) = Except.error PyTypeError.typeError :=
  ⟨rfl, fun _ => rfl, fun _ => rfl, rfl⟩

end Bio2Bel
